import Mathlib

/-!
Formal model of the Ladybug CDN file-relay service (`src/api/index.js`),
with its configuration defaults taken from the service's config module.
Pure helpers (MIME classification, filename sanitization) are embedded as
Lean functions; the upload / batch / delete / list handlers are embedded
as explicit functions of the outcomes of the external store calls
(`axios.get` / `axios.put` / `axios.delete`), so that every control-flow
branch of the source is represented.
-/

namespace LadybugCDN

/-! ## Configuration defaults (config module) -/

/-- Default `IMAGE_MIMETYPES` list from the config module. -/
def imageMimetypes : List String :=
  ["image/jpeg", "image/jpg", "image/png", "image/gif", "image/webp",
   "image/svg+xml", "image/avif", "image/heif", "image/heic",
   "image/x-icon", "image/tiff"]

/-- Default `AUDIO_MIMETYPES` list from the config module. -/
def audioMimetypes : List String :=
  ["audio/mp3", "audio/mp4", "audio/mpeg", "audio/wav", "audio/ogg",
   "audio/webm", "audio/x-midi", "audio/midi", "audio/x-ms-wma",
   "audio/x-m4a", "audio/flac", "audio/aac", "audio/webm", "audio/wave"]

/-- Default `VIDEO_MIMETYPES` list from the config module. -/
def videoMimetypes : List String :=
  ["video/mp4", "video/webm", "video/quicktime", "video/x-msvideo",
   "video/avi", "video/mpeg", "video/x-ms-wmv", "video/3gpp2",
   "video/3gpp", "video/x-matroska", "video/ogg"]

/-- Default `DOC_MIMETYPES` list from the config module. -/
def docMimetypes : List String :=
  ["text/plain", "text/html", "text/css", "text/javascript", "text/csv",
   "text/xml", "text/markdown", "text/rtf", "application/pdf",
   "application/msword", "application/vnd.ms-excel",
   "application/vnd.ms-powerpoint",
   "application/vnd.openxmlformats-officedocument.wordprocessingml.document",
   "application/vnd.openxmlformats-officedocument.spreadsheetml.sheet",
   "application/vnd.openxmlformats-officedocument.presentationml.presentation",
   "application/vnd.oasis.opendocument.text",
   "application/vnd.oasis.opendocument.spreadsheet",
   "application/vnd.oasis.opendocument.presentation",
   "application/rtf", "application/x-abiword", "application/zip",
   "application/x-zip-compressed", "application/x-rar-compressed",
   "application/x-7z-compressed", "application/x-tar", "application/gzip",
   "application/x-bzip", "application/x-bzip2", "application/json",
   "application/ld+json", "application/xml", "application/javascript",
   "application/typescript", "application/x-httpd-php",
   "application/x-yaml", "application/graphql", "application/graphql",
   "application/sql", "font/ttf", "font/otf", "font/woff", "font/woff2",
   "application/x-font-ttf", "application/x-font-otf",
   "application/font-woff", "application/font-woff2",
   "application/octet-stream", "application/x-www-form-urlencoded",
   "multipart/form-data", "text/calendar",
   "application/vnd.android.package-archive", "application/x-msdownload",
   "application/x-apple-diskimage"]

/-- `config.githubUser` default. -/
def githubUser : String := "mauricegift"

/-- `config.githubRepo` default. -/
def githubRepo : String := "ghbcdn"

/-- `config.repoBranch` default. -/
def repoBranch : String := "main"

/-- `config.cdnApiUrl` default. -/
def cdnApiUrl : String := "https://cdn.jsdelivr.net/gh"

/-- `ALLOWED_MIME_TYPES`: concatenation of the four configured lists
(`src/api/index.js` lines 44-49). -/
def ALLOWED_MIME_TYPES : List String :=
  imageMimetypes ++ videoMimetypes ++ audioMimetypes ++ docMimetypes

/-- `FOLDER_MAP` (`src/api/index.js` lines 52-59), as the ordered list of
entries that `Object.entries` yields (JS string keys enumerate in
insertion order). -/
def FOLDER_MAP : List (String × List String) :=
  [("images", imageMimetypes),
   ("videos", videoMimetypes),
   ("audio", audioMimetypes),
   ("documents", docMimetypes),
   ("archives", ["application/zip", "application/x-rar-compressed",
                 "application/x-7z-compressed"]),
   ("code", ["text/plain", "application/json", "text/javascript",
             "text/css", "text/html"])]

/-! ## MIME classifier (`getFolderForContentType`) -/

/-- Embedding of JS `String.prototype.toLowerCase` for the ASCII range
(every configured MIME type is ASCII): uppercase Latin letters are shifted
down by 32, all other characters kept. -/
def jsToLowerCase (s : String) : String :=
  String.mk (s.data.map (fun c =>
    if 65 ≤ c.toNat && c.toNat ≤ 90 then Char.ofNat (c.toNat + 32) else c))

/-- The `for (const [folder, types] of Object.entries(FOLDER_MAP))` loop:
return the first folder whose type list matches the (already lowercased)
content type case-insensitively, else nothing. -/
def folderLoop (ct : String) : List (String × List String) → Option String
  | [] => none
  | (folder, types) :: rest =>
    if types.any (fun t => jsToLowerCase t == ct) then some folder
    else folderLoop ct rest

/-- `getFolderForContentType` (`src/api/index.js` lines 61-70). The input
is `none` for JS `null`/`undefined`; the falsy check `!contentType` also
catches the empty string. -/
def getFolderForContentType (contentType : Option String) : String :=
  match contentType with
  | none => "files"
  | some ct =>
    if ct = "" then "files"
    else
      match folderLoop (jsToLowerCase ct) FOLDER_MAP with
      | some folder => folder
      | none => "documents"

/-! ## Filename sanitizer (upload path, `src/api/index.js` lines 157-161) -/

/-- Membership in the JS regex class `[a-zA-Z0-9-._]`, by code point. -/
def isAllowedChar (c : Char) : Bool :=
  (65 ≤ c.toNat && c.toNat ≤ 90) || (97 ≤ c.toNat && c.toNat ≤ 122) ||
  (48 ≤ c.toNat && c.toNat ≤ 57) ||
  c.toNat = 45 || c.toNat = 46 || c.toNat = 95

/-- Membership in the JS regex class `\s` (ECMAScript WhiteSpace and
LineTerminator code points), by code point. -/
def isJsWhitespace (c : Char) : Bool :=
  c.toNat = 9 || c.toNat = 10 || c.toNat = 11 || c.toNat = 12 ||
  c.toNat = 13 || c.toNat = 32 || c.toNat = 160 || c.toNat = 5760 ||
  (8192 ≤ c.toNat && c.toNat ≤ 8202) || c.toNat = 8232 ||
  c.toNat = 8233 || c.toNat = 8239 || c.toNat = 8287 ||
  c.toNat = 12288 || c.toNat = 65279

/-- `.replace(/\s+/g, '-')` on a character list: each maximal run of
whitespace becomes a single hyphen. -/
def collapseWs : List Char → List Char
  | [] => []
  | [c] => if isJsWhitespace c then ['-'] else [c]
  | c1 :: c2 :: rest =>
    if isJsWhitespace c1 then
      if isJsWhitespace c2 then collapseWs (c2 :: rest)
      else '-' :: collapseWs (c2 :: rest)
    else c1 :: collapseWs (c2 :: rest)

/-- The sanitizer applied to `fileId_originalname`:
`.replace(/\s+/g, '-').replace(/[^a-zA-Z0-9-._]/g, '')`. -/
def jsSanitizeName (s : String) : String :=
  String.mk ((collapseWs s.data).filter isAllowedChar)

/-! ## JSON response objects -/

/-- A JSON-ish value appearing in a response body. -/
inductive JVal where
  | s (v : String)
  | n (v : Nat)
  | b (v : Bool)
  deriving DecidableEq, Repr

/-- A response body: the ordered key/value pairs of the JS object literal
passed to `res.json`. -/
abbrev JObj := List (String × JVal)

/-- Field lookup in a response body. -/
def jlookup (o : JObj) (k : String) : Option JVal :=
  match o with
  | [] => none
  | (k2, v) :: rest => if k2 = k then some v else jlookup rest k

/-- Whether a response body carries a field named `k`. -/
def hasField (o : JObj) (k : String) : Bool :=
  (jlookup o k).isSome

/-! ## Upload orchestrator (`uploadToGitHub`, `src/api/index.js` 155-226) -/

/-- Outcome of the `axios.get` existence check: a 2xx response (with
`truthy` recording whether `response.data` is truthy), or an error that
carries an HTTP status when the server responded (`none` models a
transport failure with no HTTP response), plus its `message`. -/
inductive AxiosGet where
  | okData (truthy : Bool)
  | err (status : Option Nat) (msg : String)

/-- Outcome of the `axios.put` write call. -/
inductive AxiosPut where
  | ok
  | err (status : Option Nat) (msg : String)

/-- The observable result of one `uploadToGitHub` run: HTTP status, the
JSON body, and whether `axios.put` was invoked. -/
structure FlowOut where
  status : Nat
  resp : JObj
  didPut : Bool
  deriving Repr

/-- `fileName` computed by the upload path (lines 156-160):
sanitize(`fileId_originalname`). -/
def uploadFileName (fileId originalname : String) : String :=
  jsSanitizeName (fileId ++ "_" ++ originalname)

/-- `filePath` (line 161): `folder/fileName`. -/
def uploadFilePath (folder fileId originalname : String) : String :=
  folder ++ "/" ++ uploadFileName fileId originalname

/-- The public URL (lines 176 and 203):
`{cdnApiUrl}/{user}/{repo}@{branch}/{filePath}`. -/
def rawUrlFor (filePath : String) : String :=
  cdnApiUrl ++ "/" ++ githubUser ++ "/" ++ githubRepo ++ "@" ++ repoBranch
    ++ "/" ++ filePath

/-- `uploadToGitHub` (lines 155-226) as a function of the two external
call outcomes. The inner `catch` rethrows exactly when the error has a
response with status ≠ 404 (line 190); a 404, a falsy body, or an error
without a response all fall through to the `axios.put` write. -/
def uploadFlow (g : AxiosGet) (p : AxiosPut)
    (fileId folder originalname mimeType : String)
    (fileSize : Nat) (now : String) : FlowOut :=
  let fileName := uploadFileName fileId originalname
  let filePath := folder ++ "/" ++ fileName
  let rawUrl := rawUrlFor filePath
  let failOut : String → Bool → FlowOut := fun msg put =>
    { status := 500
      resp := [("success", .b false), ("error", .s msg),
               ("service", .s "Ladybug CDN"), ("code", .s "UPLOAD_FAILED")]
      didPut := put }
  let afterCheck : FlowOut :=
    match p with
    | .ok =>
      { status := 200
        resp := [("success", .b true), ("rawUrl", .s rawUrl),
                 ("fileId", .s fileId), ("fileName", .s fileName),
                 ("folder", .s folder), ("fileSize", .n fileSize),
                 ("mimeType", .s mimeType), ("service", .s "Ladybug CDN"),
                 ("uploadedBy", .s "Ladybug CDN Service"),
                 ("timestamp", .s now)]
        didPut := true }
    | .err _ msg => failOut msg true
  match g with
  | .okData true =>
    { status := 200
      resp := [("success", .b true), ("rawUrl", .s rawUrl),
               ("fileId", .s fileId), ("fileName", .s fileName),
               ("folder", .s folder),
               ("message", .s "File already exists, returning existing URL"),
               ("service", .s "Ladybug CDN"),
               ("uploadedBy", .s "Ladybug CDN Service"),
               ("timestamp", .s now)]
      didPut := false }
  | .okData false => afterCheck
  | .err none _ => afterCheck
  | .err (some st) msg =>
    if st = 404 then afterCheck else failOut msg false

/-- Result of running `uploadToGitHub` against a mock store: the flow
observables plus the store contents afterwards. -/
structure StoreOut where
  flow : FlowOut
  store : List String

/-- One invocation of `uploadToGitHub` against a mock content store
holding the list of stored paths: `get` succeeds with a truthy body iff
the path is stored (the GitHub contents API returns a JSON record),
otherwise fails with HTTP 404; `put` succeeds and adds the path. -/
def uploadToGitHub (store : List String)
    (fileId folder originalname mimeType : String)
    (fileSize : Nat) (now : String) : StoreOut :=
  let filePath := uploadFilePath folder fileId originalname
  let g := if filePath ∈ store then AxiosGet.okData true
           else AxiosGet.err (some 404) "Request failed with status code 404"
  let out := uploadFlow g AxiosPut.ok fileId folder originalname mimeType
    fileSize now
  { flow := out
    store := if out.didPut then store ++ [filePath] else store }

/-! ## Batch upload (`POST /api/ladybug/batch-upload`, lines 244-322) -/

/-- A file of a multipart request, as multer presents it. -/
structure UploadFile where
  originalname : String
  mimetype : String
  size : Nat
  deriving Repr, DecidableEq

/-- An entry of the batch response's `results` array (lines 293-302). -/
structure BatchItemResult where
  originalName : String
  fileName : String
  fileId : String
  rawUrl : String
  folder : String
  fileSize : Nat
  mimeType : String
  deriving Repr, DecidableEq

/-- An entry of the batch response's `errors` array. The `mimeType` field
is present only in the type-rejection entry (lines 261-265); the write
failure entry (lines 305-308) has just `fileName` and `error`. -/
structure BatchError where
  fileName : String
  error : String
  mimeType : Option String
  deriving Repr, DecidableEq

/-- The `for` loop of the batch handler (lines 257-310): builds the
`results` and `errors` arrays. `ids i` is the value `makeId()` yields at
iteration `i`; `puts i` is the outcome of the `axios.put` at iteration
`i`. -/
def batchLoop (ids : Nat → String) (puts : Nat → AxiosPut) :
    Nat → List UploadFile → List BatchItemResult × List BatchError
  | _, [] => ([], [])
  | i, f :: rest =>
    let (rs, es) := batchLoop ids puts (i + 1) rest
    if ALLOWED_MIME_TYPES.contains f.mimetype then
      let folder := getFolderForContentType (some f.mimetype)
      let fileId := ids i
      let fileName := jsSanitizeName (fileId ++ "_" ++ f.originalname)
      let filePath := folder ++ "/" ++ fileName
      match puts i with
      | .ok =>
        ({ originalName := f.originalname, fileName := fileName,
           fileId := fileId, rawUrl := rawUrlFor filePath, folder := folder,
           fileSize := f.size, mimeType := f.mimetype } :: rs, es)
      | .err _ msg =>
        (rs, { fileName := f.originalname, error := msg,
               mimeType := none } :: es)
    else
      (rs, { fileName := f.originalname, error := "File type not allowed",
             mimeType := some f.mimetype } :: es)

/-- Body of the non-empty batch response (lines 312-321). -/
structure BatchOkBody where
  success : Bool
  totalFiles : Nat
  successfulUploads : Nat
  failedUploads : Nat
  results : List BatchItemResult
  errors : List BatchError
  timestamp : String
  deriving Repr, DecidableEq

/-- Response of the batch handler: the empty-request rejection
(lines 245-252) or the aggregate body. -/
inductive BatchOut where
  | noFiles (status : Nat) (success : Bool) (code : String)
  | ok (status : Nat) (body : BatchOkBody)
  deriving Repr, DecidableEq

/-- The batch-upload handler (lines 244-322). -/
def batchHandler (files : List UploadFile) (ids : Nat → String)
    (puts : Nat → AxiosPut) (now : String) : BatchOut :=
  if files.isEmpty then .noFiles 400 false "NO_FILES"
  else
    let (rs, es) := batchLoop ids puts 0 files
    .ok 200 { success := true, totalFiles := files.length,
              successfulUploads := rs.length, failedUploads := es.length,
              results := rs, errors := es, timestamp := now }

/-! ## Delete endpoint (`DELETE /api/ladybug/delete`, lines 390-488) -/

/-- Outcome of the `axios.get` on the target path, whose body carries the
object's `sha`. -/
inductive AxGetSha where
  | ok (sha : String)
  | err (status : Option Nat) (msg : String)

/-- Outcome of the `axios.delete` call. -/
inductive AxDelete where
  | ok
  | err (status : Option Nat) (msg : String)

/-- Mock content store for the delete endpoint: `listing folder` is the
directory listing request on a folder (`none` = the request failed, which
the search loop swallows with `continue`); `getFile` and `delFile` are
the object-level calls on a path. -/
structure DeleteStore where
  listing : String → Option (List String)
  getFile : String → AxGetSha
  delFile : String → AxDelete

/-- `Object.keys(FOLDER_MAP)` (line 407). -/
def folderKeys : List String :=
  FOLDER_MAP.map Prod.fst

/-- The folder-scan loop of the delete endpoint (lines 410-430): the
first listed file whose name starts with `fileId` determines the target
path `folder/name`; failed listings are skipped. -/
def searchLoop (st : DeleteStore) (fileId : String) :
    List String → Option String
  | [] => none
  | folder :: rest =>
    match st.listing folder with
    | none => searchLoop st fileId rest
    | some names =>
      match names.find? (fun nm => nm.startsWith fileId) with
      | some nm => some (folder ++ "/" ++ nm)
      | none => searchLoop st fileId rest

/-- Observable result of the delete endpoint: HTTP status, the `success`
flag, and the error `code` field (absent on success). -/
structure DeleteOut where
  status : Nat
  success : Bool
  code : Option String
  deriving Repr, DecidableEq

/-- The get-sha-then-delete sequence (lines 442-469) together with the
outer `catch` (lines 471-487): a thrown error with an HTTP 404 response
becomes `FILE_NOT_FOUND`, every other throw becomes a 500
`DELETE_FAILED`. -/
def doDelete (st : DeleteStore) (target : String) : DeleteOut :=
  match st.getFile target with
  | .ok _sha =>
    match st.delFile target with
    | .ok => { status := 200, success := true, code := none }
    | .err resp _ =>
      if resp = some 404 then
        { status := 404, success := false, code := some "FILE_NOT_FOUND" }
      else
        { status := 500, success := false, code := some "DELETE_FAILED" }
  | .err resp _ =>
    if resp = some 404 then
      { status := 404, success := false, code := some "FILE_NOT_FOUND" }
    else
      { status := 500, success := false, code := some "DELETE_FAILED" }

/-- The delete handler (lines 390-488). `filename`/`fileId` are `none`
when the corresponding body field is absent (JS falsy). -/
def deleteHandler (st : DeleteStore) (filename fileId : Option String) :
    DeleteOut :=
  match filename, fileId with
  | none, none =>
    { status := 400, success := false, code := some "MISSING_IDENTIFIER" }
  | some fn, _ => doDelete st fn
  | none, some fid =>
    match searchLoop st fid folderKeys with
    | none =>
      { status := 404, success := false, code := some "FILE_NOT_FOUND" }
    | some target => doDelete st target

/-! ## List endpoint (`GET /api/ladybug/files`, lines 491-546) -/

/-- A GitHub directory entry as consumed by the list endpoint. -/
structure GhFile where
  name : String
  size : Nat
  download_url : String
  deriving Repr, DecidableEq

/-- An entry of the list response's `files` array (lines 507-514). -/
structure ListedFile where
  fileId : String
  fileName : String
  folder : String
  size : Nat
  rawUrl : String
  downloadUrl : String
  deriving Repr, DecidableEq

/-- The per-entry mapping (lines 507-514); `fileId` is
`file.name.split('_')[0]`. -/
def toListedFile (folderName : String) (f : GhFile) : ListedFile :=
  { fileId := (f.name.splitOn "_").headD ""
    fileName := f.name
    folder := folderName
    size := f.size
    rawUrl := rawUrlFor (folderName ++ "/" ++ f.name)
    downloadUrl := f.download_url }

/-- The folder-scan loop (lines 498-520): concatenate the mapped entries
of each selected folder in order, skipping folders whose listing request
fails. -/
def gatherFiles (listing : String → Option (List GhFile)) :
    List String → List ListedFile
  | [] => []
  | folder :: rest =>
    match listing folder with
    | none => gatherFiles listing rest
    | some fs => fs.map (toListedFile folder) ++ gatherFiles listing rest

/-- JS `Number()` (and, coincidingly, `parseInt`) on the query values
this model admits: a non-empty decimal digit string yields its value;
`none` stands for `NaN` on anything else. -/
def parseDigits (s : String) : Option Nat :=
  if s ≠ "" && s.data.all (fun c => 48 ≤ c.toNat && c.toNat ≤ 57) then
    some (s.data.foldl (fun n c => n * 10 + (c.toNat - 48)) 0)
  else none

/-- A query parameter with a numeric destructuring default: absent means
the default number, present means the string coerces numerically. -/
def parseQNum (dflt : Nat) : Option String → Option Nat
  | none => some dflt
  | some s => parseDigits s

/-- JS `Array.prototype.slice(s, e)`: negative indices count from the
end, indices are clamped to `[0, length]`. -/
def jsSlice {α : Type} (l : List α) (s e : Int) : List α :=
  let len : Int := l.length
  let s2 := if s < 0 then max (len + s) 0 else min s len
  let e2 := if e < 0 then max (len + e) 0 else min e len
  (l.drop s2.toNat).take (e2 - s2).toNat

/-- Observable result of the list endpoint. `totalPages` is `none` when
`Math.ceil(total / limit)` is not a finite number (limit 0). -/
structure ListOut where
  status : Nat
  success : Bool
  totalFiles : Nat
  currentPage : Nat
  totalPages : Option Nat
  files : List ListedFile
  deriving Repr, DecidableEq

/-- The list handler (lines 491-546) on the inputs this model admits:
query values are decimal digit strings or absent (the `none` result
stands for the NaN regime of other strings, outside this model). -/
def listFilesHandler (listing : String → Option (List GhFile))
    (folderQ limitQ pageQ : Option String) : Option ListOut :=
  let folders := match folderQ with
    | some f => [f]
    | none => folderKeys
  let allFiles := gatherFiles listing folders
  match parseQNum 50 limitQ, parseQNum 1 pageQ with
  | some limit, some page =>
    let startIndex : Int := ((page : Int) - 1) * (limit : Int)
    let endIndex : Int := startIndex + (limit : Int)
    some { status := 200
           success := true
           totalFiles := allFiles.length
           currentPage := page
           totalPages := if limit = 0 then none
             else some ((allFiles.length + limit - 1) / limit)
           files := jsSlice allFiles startIndex endIndex }
  | _, _ => none

/-! ## Spec-side helper definitions used by theorem statements -/

/-- Original names of the files the batch loop fails on (disallowed type,
or a failed write), in submission order. -/
def failingNames (puts : Nat → AxiosPut) : Nat → List UploadFile → List String
  | _, [] => []
  | i, f :: rest =>
    if ALLOWED_MIME_TYPES.contains f.mimetype then
      match puts i with
      | .ok => failingNames puts (i + 1) rest
      | .err _ _ => f.originalname :: failingNames puts (i + 1) rest
    else f.originalname :: failingNames puts (i + 1) rest

/-- Original names of the files the batch loop succeeds on, in submission
order. -/
def succeedingNames (puts : Nat → AxiosPut) :
    Nat → List UploadFile → List String
  | _, [] => []
  | i, f :: rest =>
    if ALLOWED_MIME_TYPES.contains f.mimetype then
      match puts i with
      | .ok => f.originalname :: succeedingNames puts (i + 1) rest
      | .err _ _ => succeedingNames puts (i + 1) rest
    else succeedingNames puts (i + 1) rest

/-- The aggregate body of a batch response, when there is one. -/
def batchBody : BatchOut → Option BatchOkBody
  | .noFiles _ _ _ => none
  | .ok _ body => some body

/-! ## Sanitizer lemmas -/

theorem allowedChar_not_ws (c : Char) (h : isAllowedChar c = true) :
    isJsWhitespace c = false := by
  simp only [isAllowedChar, Bool.or_eq_true, Bool.and_eq_true,
    decide_eq_true_eq] at h
  simp only [isJsWhitespace, Bool.or_eq_false_iff, Bool.and_eq_false_iff,
    decide_eq_false_iff_not]
  omega

theorem collapseWs_of_no_ws :
    ∀ l : List Char, (∀ c ∈ l, isJsWhitespace c = false) →
      collapseWs l = l := by
  intro l
  induction l with
  | nil => intro _; rfl
  | cons c rest ih =>
    intro h
    cases rest with
    | nil =>
      simp [collapseWs, h c (by simp)]
    | cons c2 r2 =>
      have hc := h c (by simp)
      have hrest : ∀ x ∈ c2 :: r2, isJsWhitespace x = false := by
        intro x hx
        exact h x (by simp [hx])
      simp [collapseWs, hc, ih hrest]

theorem sanitize_data (s : String) :
    (jsSanitizeName s).data = (collapseWs s.data).filter isAllowedChar :=
  rfl

theorem sanitize_all_allowed (s : String) :
    (jsSanitizeName s).data.all isAllowedChar = true := by
  rw [sanitize_data, List.all_eq_true]
  intro c hc
  exact (List.mem_filter.mp hc).2

theorem sanitize_idem (s : String) :
    jsSanitizeName (jsSanitizeName s) = jsSanitizeName s := by
  have hall : ∀ c ∈ (jsSanitizeName s).data, isAllowedChar c = true := by
    intro c hc
    rw [sanitize_data] at hc
    exact (List.mem_filter.mp hc).2
  have hnows : ∀ c ∈ (jsSanitizeName s).data, isJsWhitespace c = false := by
    intro c hc
    exact allowedChar_not_ws c (hall c hc)
  show String.mk ((collapseWs (jsSanitizeName s).data).filter isAllowedChar)
      = jsSanitizeName s
  rw [collapseWs_of_no_ws _ hnows, List.filter_eq_self.mpr hall]

/-- C4: for every identifier and original filename, the filename built by
the upload path (identifier + underscore + original name, whitespace runs
collapsed to a hyphen, then every character outside `[A-Za-z0-9-._]`
stripped) contains only characters of that class, and re-applying the
sanitizer to its own output returns it unchanged. -/
theorem upload_fileName_sanitized_idempotent :
    ∀ fileId originalname : String,
      (uploadFileName fileId originalname).data.all isAllowedChar = true ∧
      jsSanitizeName (uploadFileName fileId originalname) =
        uploadFileName fileId originalname := by
  intro fileId originalname
  exact ⟨sanitize_all_allowed _, sanitize_idem _⟩

/-! ## Classifier lemmas -/

theorem folderLoop_eq_find (c : String) :
    ∀ l : List (String × List String),
      folderLoop c l =
        (l.find? (fun e => e.2.any (fun t => jsToLowerCase t == c))).map
          Prod.fst := by
  intro l
  induction l with
  | nil => rfl
  | cons e rest ih =>
    obtain ⟨folder, types⟩ := e
    by_cases h : types.any (fun t => jsToLowerCase t == c) = true
    · simp [folderLoop, List.find?, h]
    · simp only [Bool.not_eq_true] at h
      simp [folderLoop, List.find?, h, ih]

/-- C3: the classifier returns the fallback `files` for null and empty
input, and otherwise the first category of `FOLDER_MAP` (in its fixed
entry order) whose type list matches the content type case-insensitively,
defaulting to `documents` — a default distinct from the empty-input
fallback. In particular `image/png ↦ images`,
`application/unknown-type ↦ documents`, `null ↦ files`. -/
theorem classifier_two_tier :
    getFolderForContentType none = "files" ∧
    getFolderForContentType (some "") = "files" ∧
    getFolderForContentType (some "image/png") = "images" ∧
    getFolderForContentType (some "application/unknown-type") =
      "documents" ∧
    getFolderForContentType (some "application/unknown-type") ≠
      getFolderForContentType none ∧
    ∀ ct : String, ct ≠ "" →
      getFolderForContentType (some ct) =
        ((FOLDER_MAP.find? (fun e =>
            e.2.any (fun t => jsToLowerCase t == jsToLowerCase ct))).map
          Prod.fst).getD "documents" := by
  refine ⟨by decide, by decide, by decide, by decide, by decide, ?_⟩
  intro ct h
  simp only [getFolderForContentType, if_neg h]
  rw [folderLoop_eq_find]
  cases hfind : FOLDER_MAP.find? (fun e =>
      e.2.any (fun t => jsToLowerCase t == jsToLowerCase ct)) with
  | none => simp
  | some e => simp

/-- C3 witness: the first-match characterization instantiated at the
concrete content type `video/mp4`. -/
theorem classifier_two_tier_witness :
    getFolderForContentType (some "video/mp4") =
      ((FOLDER_MAP.find? (fun e =>
          e.2.any (fun t => jsToLowerCase t == jsToLowerCase "video/mp4"))).map
        Prod.fst).getD "documents" :=
  classifier_two_tier.2.2.2.2.2 "video/mp4" (by decide)

theorem arch_code_match_imp_doc (c : String)
    (h : (["application/zip", "application/x-rar-compressed",
           "application/x-7z-compressed"] : List String).any
            (fun t => jsToLowerCase t == c) = true ∨
         (["text/plain", "application/json", "text/javascript",
           "text/css", "text/html"] : List String).any
            (fun t => jsToLowerCase t == c) = true) :
    docMimetypes.any (fun t => jsToLowerCase t == c) = true := by
  rcases h with h | h
  · simp only [List.any_cons, List.any_nil, Bool.or_eq_true,
      Bool.or_false, beq_iff_eq] at h
    rcases h with h | h | h <;> (subst h; decide)
  · simp only [List.any_cons, List.any_nil, Bool.or_eq_true,
      Bool.or_false, beq_iff_eq] at h
    rcases h with h | h | h | h | h <;> (subst h; decide)

/-- C9: with the default configuration the `documents` list contains
every type of the hardcoded `archives` and `code` lists and precedes them
in the `FOLDER_MAP` iteration order, so the classifier never returns
`archives` or `code` for any input. -/
theorem archives_code_unreachable :
    ∀ ct : Option String,
      getFolderForContentType ct ≠ "archives" ∧
      getFolderForContentType ct ≠ "code" := by
  intro ct
  cases ct with
  | none => exact ⟨by decide, by decide⟩
  | some s =>
    by_cases hs : s = ""
    · subst hs
      exact ⟨by decide, by decide⟩
    · simp only [getFolderForContentType, if_neg hs]
      set c := jsToLowerCase s with hc
      simp only [FOLDER_MAP, folderLoop]
      by_cases h1 : imageMimetypes.any (fun t => jsToLowerCase t == c) = true
      · simp [h1]
      · simp only [Bool.not_eq_true] at h1
        simp only [h1, Bool.false_eq_true, if_false]
        by_cases h2 : videoMimetypes.any (fun t => jsToLowerCase t == c) = true
        · simp [h2]
        · simp only [Bool.not_eq_true] at h2
          simp only [h2, Bool.false_eq_true, if_false]
          by_cases h3 : audioMimetypes.any (fun t => jsToLowerCase t == c) = true
          · simp [h3]
          · simp only [Bool.not_eq_true] at h3
            simp only [h3, Bool.false_eq_true, if_false]
            by_cases h4 : docMimetypes.any (fun t => jsToLowerCase t == c) = true
            · simp [h4]
            · have h5 : (["application/zip", "application/x-rar-compressed",
                  "application/x-7z-compressed"] : List String).any
                    (fun t => jsToLowerCase t == c) = false := by
                by_contra hcon
                simp only [Bool.not_eq_false] at hcon
                exact h4 (arch_code_match_imp_doc c (Or.inl hcon))
              have h6 : (["text/plain", "application/json",
                  "text/javascript", "text/css",
                  "text/html"] : List String).any
                    (fun t => jsToLowerCase t == c) = false := by
                by_contra hcon
                simp only [Bool.not_eq_false] at hcon
                exact h4 (arch_code_match_imp_doc c (Or.inr hcon))
              simp only [Bool.not_eq_true] at h4
              simp [h4, h5, h6]

/-! ## Upload orchestrator theorems -/

/-- C1: uploading the same (customId, originalFilename) pair twice
returns success both times with an identical rawUrl; on the retry the
existence check finds the object at the same storage path, the response
is built from the existing object's public URL with the already-exists
message, no `put` is performed and the store is unchanged. -/
theorem upload_retry_idempotent
    (store : List String) (fileId folder originalname mimeType : String)
    (fileSize : Nat) (now1 now2 : String) :
    jlookup (uploadToGitHub store fileId folder originalname mimeType
      fileSize now1).flow.resp "success" = some (.b true) ∧
    jlookup (uploadToGitHub (uploadToGitHub store fileId folder
      originalname mimeType fileSize now1).store fileId folder
      originalname mimeType fileSize now2).flow.resp "success" =
        some (.b true) ∧
    jlookup (uploadToGitHub store fileId folder originalname mimeType
      fileSize now1).flow.resp "rawUrl" =
      some (.s (rawUrlFor (uploadFilePath folder fileId originalname))) ∧
    jlookup (uploadToGitHub (uploadToGitHub store fileId folder
      originalname mimeType fileSize now1).store fileId folder
      originalname mimeType fileSize now2).flow.resp "rawUrl" =
      jlookup (uploadToGitHub store fileId folder originalname mimeType
        fileSize now1).flow.resp "rawUrl" ∧
    (uploadToGitHub (uploadToGitHub store fileId folder originalname
      mimeType fileSize now1).store fileId folder originalname mimeType
      fileSize now2).flow.didPut = false ∧
    (uploadToGitHub (uploadToGitHub store fileId folder originalname
      mimeType fileSize now1).store fileId folder originalname mimeType
      fileSize now2).store =
      (uploadToGitHub store fileId folder originalname mimeType fileSize
        now1).store ∧
    jlookup (uploadToGitHub (uploadToGitHub store fileId folder
      originalname mimeType fileSize now1).store fileId folder
      originalname mimeType fileSize now2).flow.resp "message" =
      some (.s "File already exists, returning existing URL") := by
  by_cases hmem :
      folder ++ "/" ++ uploadFileName fileId originalname ∈ store
  · simp [uploadToGitHub, uploadFlow, uploadFilePath, jlookup, hmem,
      rawUrlFor]
  · simp [uploadToGitHub, uploadFlow, uploadFilePath, jlookup, hmem,
      rawUrlFor]

/-- C2 counterexample: when the existence check fails with a transport
error carrying no HTTP response, the request does NOT terminate with a
store-error response — the error is swallowed by
`if (error.response && error.response.status !== 404)` and the flow
proceeds to `put`, here ending in a success response. -/
theorem upload_check_no_response_proceeds :
    (uploadFlow (.err none "socket hang up") .ok "abc" "images" "a.png"
      "image/png" 3 "t0").didPut = true ∧
    (uploadFlow (.err none "socket hang up") .ok "abc" "images" "a.png"
      "image/png" 3 "t0").status = 200 ∧
    jlookup (uploadFlow (.err none "socket hang up") .ok "abc" "images"
      "a.png" "image/png" 3 "t0").resp "success" = some (.b true) := by
  refine ⟨rfl, rfl, by decide⟩

/-- C2 amended: only an existence-check error carrying an HTTP response
with status ≠ 404 terminates the request (500, `UPLOAD_FAILED`) without a
write; a 404 response — and likewise an error with no HTTP response at
all — lets the flow proceed to the write step. -/
theorem upload_check_error_routing
    (st : Nat) (msg : String) (p : AxiosPut)
    (fileId folder originalname mimeType : String) (fileSize : Nat)
    (now : String) :
    (st ≠ 404 →
      (uploadFlow (.err (some st) msg) p fileId folder originalname
        mimeType fileSize now).didPut = false ∧
      (uploadFlow (.err (some st) msg) p fileId folder originalname
        mimeType fileSize now).status = 500 ∧
      jlookup (uploadFlow (.err (some st) msg) p fileId folder
        originalname mimeType fileSize now).resp "code" =
          some (.s "UPLOAD_FAILED")) ∧
    (uploadFlow (.err (some 404) msg) p fileId folder originalname
      mimeType fileSize now).didPut = true ∧
    (uploadFlow (.err none msg) p fileId folder originalname mimeType
      fileSize now).didPut = true := by
  refine ⟨?_, ?_, ?_⟩
  · intro hne
    cases p <;> simp [uploadFlow, jlookup, hne]
  · cases p <;> simp [uploadFlow]
  · cases p <;> simp [uploadFlow]

/-- C2 witness: the terminal branch instantiated at a concrete 500-status
existence-check failure. -/
theorem upload_check_error_routing_witness :
    (uploadFlow (.err (some 500) "boom") .ok "a" "images" "f.png"
      "image/png" 1 "t").didPut = false ∧
    (uploadFlow (.err (some 500) "boom") .ok "a" "images" "f.png"
      "image/png" 1 "t").status = 500 ∧
    jlookup (uploadFlow (.err (some 500) "boom") .ok "a" "images" "f.png"
      "image/png" 1 "t").resp "code" = some (.s "UPLOAD_FAILED") :=
  (upload_check_error_routing 500 "boom" .ok "a" "images" "f.png"
    "image/png" 1 "t").1 (by decide)

/-- C5 counterexample: the object-already-exists branch responds with
success (HTTP 200) yet its body carries neither `fileSize` nor
`mimeType`, so not every successful single-upload response contains all
eight claimed fields. -/
theorem exists_branch_omits_size_fields :
    jlookup (uploadFlow (.okData true) .ok "abc" "images" "a.png"
      "image/png" 3 "t0").resp "success" = some (.b true) ∧
    (uploadFlow (.okData true) .ok "abc" "images" "a.png" "image/png" 3
      "t0").status = 200 ∧
    jlookup (uploadFlow (.okData true) .ok "abc" "images" "a.png"
      "image/png" 3 "t0").resp "fileSize" = none ∧
    jlookup (uploadFlow (.okData true) .ok "abc" "images" "a.png"
      "image/png" 3 "t0").resp "mimeType" = none := by
  refine ⟨by decide, rfl, by decide, by decide⟩

/-- C5 amended: the fresh-upload branch's success response carries all of
success, rawUrl, fileId, fileName, folder, fileSize, mimeType and
timestamp; the already-exists branch's success response carries them all
except `fileSize` and `mimeType`. -/
theorem success_response_fields
    (p : AxiosPut) (fileId folder originalname mimeType : String)
    (fileSize : Nat) (now msg : String) :
    (hasField (uploadFlow (.err (some 404) msg) .ok fileId folder
        originalname mimeType fileSize now).resp "success" = true ∧
      hasField (uploadFlow (.err (some 404) msg) .ok fileId folder
        originalname mimeType fileSize now).resp "rawUrl" = true ∧
      hasField (uploadFlow (.err (some 404) msg) .ok fileId folder
        originalname mimeType fileSize now).resp "fileId" = true ∧
      hasField (uploadFlow (.err (some 404) msg) .ok fileId folder
        originalname mimeType fileSize now).resp "fileName" = true ∧
      hasField (uploadFlow (.err (some 404) msg) .ok fileId folder
        originalname mimeType fileSize now).resp "folder" = true ∧
      hasField (uploadFlow (.err (some 404) msg) .ok fileId folder
        originalname mimeType fileSize now).resp "fileSize" = true ∧
      hasField (uploadFlow (.err (some 404) msg) .ok fileId folder
        originalname mimeType fileSize now).resp "mimeType" = true ∧
      hasField (uploadFlow (.err (some 404) msg) .ok fileId folder
        originalname mimeType fileSize now).resp "timestamp" = true) ∧
    (hasField (uploadFlow (.okData true) p fileId folder originalname
        mimeType fileSize now).resp "success" = true ∧
      hasField (uploadFlow (.okData true) p fileId folder originalname
        mimeType fileSize now).resp "rawUrl" = true ∧
      hasField (uploadFlow (.okData true) p fileId folder originalname
        mimeType fileSize now).resp "fileId" = true ∧
      hasField (uploadFlow (.okData true) p fileId folder originalname
        mimeType fileSize now).resp "fileName" = true ∧
      hasField (uploadFlow (.okData true) p fileId folder originalname
        mimeType fileSize now).resp "folder" = true ∧
      hasField (uploadFlow (.okData true) p fileId folder originalname
        mimeType fileSize now).resp "timestamp" = true ∧
      hasField (uploadFlow (.okData true) p fileId folder originalname
        mimeType fileSize now).resp "fileSize" = false ∧
      hasField (uploadFlow (.okData true) p fileId folder originalname
        mimeType fileSize now).resp "mimeType" = false) := by
  constructor
  · simp [uploadFlow, hasField, jlookup]
  · simp [uploadFlow, hasField, jlookup]

/-! ## Batch upload theorems -/

theorem batchLoop_spec (ids : Nat → String) (puts : Nat → AxiosPut) :
    ∀ (files : List UploadFile) (i : Nat),
      (batchLoop ids puts i files).1.map (fun r => r.originalName) =
        succeedingNames puts i files ∧
      (batchLoop ids puts i files).2.map (fun e => e.fileName) =
        failingNames puts i files ∧
      (batchLoop ids puts i files).1.length +
        (batchLoop ids puts i files).2.length = files.length := by
  intro files
  induction files with
  | nil => intro i; exact ⟨rfl, rfl, rfl⟩
  | cons f rest ih =>
    intro i
    obtain ⟨h1, h2, h3⟩ := ih (i + 1)
    by_cases hm : f.mimetype ∈ ALLOWED_MIME_TYPES
    · cases hput : puts i with
      | ok =>
        refine ⟨?_, ?_, ?_⟩
        · simp [batchLoop, succeedingNames, hm, hput, h1]
        · simp [batchLoop, failingNames, hm, hput, h2]
        · simp [batchLoop, hm, hput]
          omega
      | err stc m =>
        refine ⟨?_, ?_, ?_⟩
        · simp [batchLoop, succeedingNames, hm, hput, h1]
        · simp [batchLoop, failingNames, hm, hput, h2]
        · simp [batchLoop, hm, hput]
          omega
    · refine ⟨?_, ?_, ?_⟩
      · simp [batchLoop, succeedingNames, hm, h1]
      · simp [batchLoop, failingNames, hm, h2]
      · simp [batchLoop, hm]
        omega

/-- C6: per-item failures in batch upload (disallowed type or failed
write) are recorded in `errors` without aborting the remaining items:
for every non-empty batch, `totalFiles` is the number of submitted files,
`successfulUploads` and `failedUploads` (the lengths of `results` and
`errors`) sum to it, the error entries carry exactly the failing files'
original names in order and the result entries the succeeding ones; in
the concrete 3-file batch whose second file has a disallowed type,
`successfulUploads = 2`, `failedUploads = 1` and `errors[0].fileName` is
that file's original name. -/
theorem batch_partial_failure :
    (∀ (files : List UploadFile) (ids : Nat → String)
       (puts : Nat → AxiosPut) (now : String), files ≠ [] →
      ∃ body : BatchOkBody,
        batchHandler files ids puts now = .ok 200 body ∧
        body.totalFiles = files.length ∧
        body.successfulUploads + body.failedUploads = files.length ∧
        body.results.map (fun r => r.originalName) =
          succeedingNames puts 0 files ∧
        body.errors.map (fun e => e.fileName) =
          failingNames puts 0 files) ∧
    (batchBody (batchHandler
        [⟨"one.png", "image/png", 1⟩,
         ⟨"two.exe", "application/x-evil", 2⟩,
         ⟨"three.mp4", "video/mp4", 3⟩]
        (fun _ => "id7") (fun _ => .ok) "t0")).map
      (fun b => (b.successfulUploads, b.failedUploads,
        b.errors.map (fun e => e.fileName))) =
      some (2, 1, ["two.exe"]) := by
  constructor
  · intro files ids puts now hne
    have hemp : files.isEmpty = false := by
      cases files with
      | nil => exact absurd rfl hne
      | cons a l => rfl
    obtain ⟨h1, h2, h3⟩ := batchLoop_spec ids puts files 0
    rcases hbl : batchLoop ids puts 0 files with ⟨rs, es⟩
    rw [hbl] at h1 h2 h3
    refine ⟨{ success := true, totalFiles := files.length,
              successfulUploads := rs.length, failedUploads := es.length,
              results := rs, errors := es, timestamp := now },
            ?_, rfl, ?_, ?_, ?_⟩
    · simp [batchHandler, hemp, hbl]
    · simpa using h3
    · simpa using h1
    · simpa using h2
  · decide

/-- C6 witness: the aggregate invariants instantiated at the concrete
3-file batch. -/
theorem batch_partial_failure_witness :
    ∃ body : BatchOkBody,
      batchHandler
        [⟨"one.png", "image/png", 1⟩,
         ⟨"two.exe", "application/x-evil", 2⟩,
         ⟨"three.mp4", "video/mp4", 3⟩]
        (fun _ => "id7") (fun _ => .ok) "t0" = .ok 200 body ∧
      body.totalFiles =
        ([⟨"one.png", "image/png", 1⟩,
          ⟨"two.exe", "application/x-evil", 2⟩,
          ⟨"three.mp4", "video/mp4", 3⟩] : List UploadFile).length ∧
      body.successfulUploads + body.failedUploads =
        ([⟨"one.png", "image/png", 1⟩,
          ⟨"two.exe", "application/x-evil", 2⟩,
          ⟨"three.mp4", "video/mp4", 3⟩] : List UploadFile).length ∧
      body.results.map (fun r => r.originalName) =
        succeedingNames (fun _ => .ok) 0
          [⟨"one.png", "image/png", 1⟩,
           ⟨"two.exe", "application/x-evil", 2⟩,
           ⟨"three.mp4", "video/mp4", 3⟩] ∧
      body.errors.map (fun e => e.fileName) =
        failingNames (fun _ => .ok) 0
          [⟨"one.png", "image/png", 1⟩,
           ⟨"two.exe", "application/x-evil", 2⟩,
           ⟨"three.mp4", "video/mp4", 3⟩] :=
  batch_partial_failure.1
    [⟨"one.png", "image/png", 1⟩,
     ⟨"two.exe", "application/x-evil", 2⟩,
     ⟨"three.mp4", "video/mp4", 3⟩]
    (fun _ => "id7") (fun _ => .ok) "t0" (by decide)

/-- C10: the batch endpoint's top-level response is HTTP 200 with
`success: true` for every non-empty batch regardless of per-item
outcomes — failures appear only in `errors` and `failedUploads` — while
an empty files array yields the 400 `success: false` `NO_FILES`
response. -/
theorem batch_success_flag :
    (∀ (ids : Nat → String) (puts : Nat → AxiosPut) (now : String),
      batchHandler [] ids puts now = .noFiles 400 false "NO_FILES") ∧
    (∀ (files : List UploadFile) (ids : Nat → String)
       (puts : Nat → AxiosPut) (now : String), files ≠ [] →
      ∃ body : BatchOkBody,
        batchHandler files ids puts now = .ok 200 body ∧
        body.success = true ∧
        body.failedUploads = body.errors.length ∧
        body.successfulUploads = body.results.length) := by
  constructor
  · intro ids puts now; rfl
  · intro files ids puts now hne
    have hemp : files.isEmpty = false := by
      cases files with
      | nil => exact absurd rfl hne
      | cons a l => rfl
    rcases hbl : batchLoop ids puts 0 files with ⟨rs, es⟩
    refine ⟨{ success := true, totalFiles := files.length,
              successfulUploads := rs.length, failedUploads := es.length,
              results := rs, errors := es, timestamp := now },
            ?_, rfl, rfl, rfl⟩
    simp [batchHandler, hemp, hbl]

/-- C10 witness: a one-file batch whose only item fails still gets the
HTTP 200 `success: true` aggregate response. -/
theorem batch_success_flag_witness :
    ∃ body : BatchOkBody,
      batchHandler [⟨"x.bin", "application/x-evil", 1⟩]
        (fun _ => "id") (fun _ => .ok) "t0" = .ok 200 body ∧
      body.success = true ∧
      body.failedUploads = body.errors.length ∧
      body.successfulUploads = body.results.length :=
  batch_success_flag.2 [⟨"x.bin", "application/x-evil", 1⟩]
    (fun _ => "id") (fun _ => .ok) "t0" (by decide)

/-! ## Delete endpoint theorems -/

theorem searchLoop_none (st : DeleteStore) (fid : String) :
    ∀ folders : List String,
      (∀ folder ∈ folders, ∀ names, st.listing folder = some names →
        ∀ nm ∈ names, nm.startsWith fid = false) →
      searchLoop st fid folders = none := by
  intro folders
  induction folders with
  | nil => intro _; rfl
  | cons folder rest ih =>
    intro h
    have hrest : ∀ f ∈ rest, ∀ names, st.listing f = some names →
        ∀ nm ∈ names, nm.startsWith fid = false := by
      intro f hf
      exact h f (by simp [hf])
    cases hl : st.listing folder with
    | none => simp [searchLoop, hl, ih hrest]
    | some names =>
      have hfind : names.find? (fun nm => nm.startsWith fid) = none := by
        apply List.find?_eq_none.mpr
        intro nm hnm
        simp [h folder (by simp) names hl nm hnm]
      simp [searchLoop, hl, hfind, ih hrest]

/-- C7: deleting a nonexistent target yields 404 `FILE_NOT_FOUND` — both
when an explicit path is given and its `get` fails with an HTTP 404, and
when a fileId is given and no folder listing contains a name starting
with it — while a 500 occurs only when some store call fails with an
error other than an HTTP 404 response. -/
theorem delete_not_found_routing :
    (∀ (st : DeleteStore) (fn : String) (fid : Option String)
       (msg : String),
      st.getFile fn = .err (some 404) msg →
      deleteHandler st (some fn) fid =
        { status := 404, success := false,
          code := some "FILE_NOT_FOUND" }) ∧
    (∀ (st : DeleteStore) (fid : String),
      (∀ folder ∈ folderKeys, ∀ names, st.listing folder = some names →
        ∀ nm ∈ names, nm.startsWith fid = false) →
      deleteHandler st none (some fid) =
        { status := 404, success := false,
          code := some "FILE_NOT_FOUND" }) ∧
    (∀ (st : DeleteStore) (filename fileId : Option String),
      (∀ p, (∃ sha, st.getFile p = .ok sha) ∨
            (∃ m, st.getFile p = .err (some 404) m)) →
      (∀ p, st.delFile p = .ok ∨
            (∃ m, st.delFile p = .err (some 404) m)) →
      (deleteHandler st filename fileId).status ≠ 500) := by
  refine ⟨?_, ?_, ?_⟩
  · intro st fn fid msg hget
    cases fid <;> simp [deleteHandler, doDelete, hget]
  · intro st fid h
    simp [deleteHandler, searchLoop_none st fid folderKeys h]
  · intro st filename fileId hget hdel
    have hdo : ∀ target, (doDelete st target).status ≠ 500 := by
      intro target
      rcases hget target with ⟨sha, hg⟩ | ⟨m, hg⟩
      · rcases hdel target with hd | ⟨m2, hd⟩
        · simp [doDelete, hg, hd]
        · simp [doDelete, hg, hd]
      · simp [doDelete, hg]
    cases filename with
    | some fn => simpa [deleteHandler] using hdo fn
    | none =>
      cases fileId with
      | none => simp [deleteHandler]
      | some fid =>
        cases hs : searchLoop st fid folderKeys with
        | none => simp [deleteHandler, hs]
        | some target => simpa [deleteHandler, hs] using hdo target

/-- C7 witness: a store whose object `get` always 404s and whose
listings all fail routes an explicit-path delete and a fileId delete to
404 `FILE_NOT_FOUND`, not 500. -/
theorem delete_not_found_routing_witness :
    deleteHandler ⟨fun _ => none, fun _ => .err (some 404) "nf",
        fun _ => .ok⟩ (some "images/x.png") none =
      { status := 404, success := false,
        code := some "FILE_NOT_FOUND" } ∧
    deleteHandler ⟨fun _ => none, fun _ => .err (some 404) "nf",
        fun _ => .ok⟩ none (some "abc") =
      { status := 404, success := false,
        code := some "FILE_NOT_FOUND" } ∧
    (deleteHandler ⟨fun _ => none, fun _ => .err (some 404) "nf",
        fun _ => .ok⟩ (some "images/x.png") none).status ≠ 500 := by
  refine ⟨delete_not_found_routing.1 _ "images/x.png" none "nf" rfl,
    delete_not_found_routing.2.1 _ "abc" ?_,
    delete_not_found_routing.2.2 _ (some "images/x.png") none ?_ ?_⟩
  · intro folder _ names hl
    exact absurd hl (by simp)
  · intro p
    exact Or.inr ⟨"nf", rfl⟩
  · intro p
    exact Or.inl rfl

/-! ## List endpoint theorems -/

theorem jsSlice_of_nonneg {α : Type} (l : List α) (a b : Nat) :
    jsSlice l (a : Int) ((a : Int) + (b : Int)) = (l.drop a).take b := by
  have hc1 : ¬((a : Int) < 0) := by omega
  have hc2 : ¬((a : Int) + (b : Int) < 0) := by omega
  simp only [jsSlice, hc1, hc2, if_false]
  rcases le_or_lt a l.length with hle | hlt
  · have h1 : (min (a : Int) (l.length : Int)).toNat = a := by omega
    have h2 : (min ((a : Int) + (b : Int)) (l.length : Int) -
        min (a : Int) (l.length : Int)).toNat =
          min b (l.length - a) := by omega
    rw [h1, h2, List.take_eq_take]
    rw [List.length_drop]
    omega
  · have h1 : (min (a : Int) (l.length : Int)).toNat = l.length := by
      omega
    rw [h1, List.drop_length, List.drop_eq_nil_of_le (Nat.le_of_lt hlt)]
    simp

/-- C8: the list endpoint concatenates the selected categories' entries
in order and paginates the concatenation with
startIndex = (page − 1) × limit and endIndex = startIndex + limit,
reporting totalFiles as the total entry count and totalPages as
⌈totalFiles / limit⌉, for positive page and limit arriving as decimal
numeral strings; concretely, limit=2, page=2 over 5 stored objects
returns exactly the entries at offsets 2–3 with totalPages = 3. -/
theorem list_pagination :
    (∀ (listing : String → Option (List GhFile)) (folderQ : Option String)
       (ls ps : String) (limit page : Nat),
      parseDigits ls = some limit → parseDigits ps = some page →
      1 ≤ limit → 1 ≤ page →
      listFilesHandler listing folderQ (some ls) (some ps) =
        some { status := 200
               success := true
               totalFiles := (gatherFiles listing (match folderQ with
                 | some f => [f]
                 | none => folderKeys)).length
               currentPage := page
               totalPages := some
                 (((gatherFiles listing (match folderQ with
                   | some f => [f]
                   | none => folderKeys)).length + limit - 1) / limit)
               files := ((gatherFiles listing (match folderQ with
                 | some f => [f]
                 | none => folderKeys)).drop
                   ((page - 1) * limit)).take limit }) ∧
    (listFilesHandler (fun f => if f = "images" then
        some [⟨"a_1", 1, "u1"⟩, ⟨"b_2", 2, "u2"⟩, ⟨"c_3", 3, "u3"⟩,
              ⟨"d_4", 4, "u4"⟩, ⟨"e_5", 5, "u5"⟩] else none)
      (some "images") (some "2") (some "2")).map
        (fun o => (o.totalFiles, o.currentPage, o.totalPages,
          o.files.map (fun x => x.fileName))) =
      some (5, 2, some 3, ["c_3", "d_4"]) := by
  constructor
  · intro listing folderQ ls ps limit page hls hps hlim hpage
    have hz : ¬(limit = 0) := by omega
    have hcast : (((page - 1) * limit : Nat) : Int) =
        ((page : Int) - 1) * (limit : Int) := by
      rw [Nat.cast_mul, Nat.cast_sub hpage, Nat.cast_one]
    simp only [listFilesHandler, parseQNum, hls, hps]
    rw [if_neg hz, ← hcast, jsSlice_of_nonneg]
  · decide

/-- C8 witness: the pagination formulas instantiated at a single-folder
store of five objects with the query strings limit="2", page="2". -/
theorem list_pagination_witness :
    listFilesHandler (fun f => if f = "images" then
        some [⟨"a_1", 1, "u1"⟩, ⟨"b_2", 2, "u2"⟩, ⟨"c_3", 3, "u3"⟩,
              ⟨"d_4", 4, "u4"⟩, ⟨"e_5", 5, "u5"⟩] else none)
      (some "images") (some "2") (some "2") =
      some { status := 200
             success := true
             totalFiles := (gatherFiles (fun f => if f = "images" then
               some [⟨"a_1", 1, "u1"⟩, ⟨"b_2", 2, "u2"⟩, ⟨"c_3", 3, "u3"⟩,
                     ⟨"d_4", 4, "u4"⟩, ⟨"e_5", 5, "u5"⟩] else none)
                 ["images"]).length
             currentPage := 2
             totalPages := some
               (((gatherFiles (fun f => if f = "images" then
                 some [⟨"a_1", 1, "u1"⟩, ⟨"b_2", 2, "u2"⟩,
                       ⟨"c_3", 3, "u3"⟩, ⟨"d_4", 4, "u4"⟩,
                       ⟨"e_5", 5, "u5"⟩] else none)
                   ["images"]).length + 2 - 1) / 2)
             files := ((gatherFiles (fun f => if f = "images" then
               some [⟨"a_1", 1, "u1"⟩, ⟨"b_2", 2, "u2"⟩, ⟨"c_3", 3, "u3"⟩,
                     ⟨"d_4", 4, "u4"⟩, ⟨"e_5", 5, "u5"⟩] else none)
                 ["images"]).drop ((2 - 1) * 2)).take 2 } :=
  list_pagination.1 (fun f => if f = "images" then
      some [⟨"a_1", 1, "u1"⟩, ⟨"b_2", 2, "u2"⟩, ⟨"c_3", 3, "u3"⟩,
            ⟨"d_4", 4, "u4"⟩, ⟨"e_5", 5, "u5"⟩] else none)
    (some "images") "2" "2" 2 2 (by decide) (by decide) (by decide)
    (by decide)

end LadybugCDN
